import Mathlib

/-!
Verification of the authorizations list page
(src/identity/client/src/pages/authorizations/List.tsx, the stateful variant,
and src/unnamed/part_000, the stateless variant).

The component derives a tab set from the ResourceType enumeration and a
feature flag, resolves the active tab from the URL query parameter
"resourceType", delegates data fetching to a paginated collaborator, sorts
each record's permission types for display, keeps the URL in sync with the
active tab, and renders an error notification with a retry action on fetch
failure.
-/

/-- Modelled from the spec: the fixed `ResourceType` enumeration lives in
src/utility/api/authorizations, which is not part of the given sources.
The spec names process, tenant and user as members ("e.g., process, tenant,
user"), with "tenant" the member that the capability flag conditionally
excludes. `Object.values(ResourceType)` yields the values in enumeration
order. -/
def allResourceTypes : List String := ["process", "tenant", "user"]

/-- The conditionally excluded enumeration member (`ResourceType.TENANT`). -/
def ResourceType.TENANT : String := "tenant"

/-- From List.tsx lines 34-40 / part_000 lines 33-40: the tab set is all
resource types, with TENANT filtered out when `isTenantsApiEnabled` is
false. -/
def authorizationTabs (isTenantsApiEnabled : Bool) : List String :=
  if !isTenantsApiEnabled then
    allResourceTypes.filter (fun ty => ty != ResourceType.TENANT)
  else
    allResourceTypes

/-- From List.tsx lines 43-51 (`getActiveTabFromUrl`): the URL parameter
value (`none` models `searchParams.get` returning null) is kept when it is
truthy (non-empty, matching JS `resourceTypeFromUrl &&`) and contained in
the tab set; otherwise the first tab (`authorizationTabs[0]`, which is
undefined — `none` — on an empty tab set) is used. -/
def getActiveTabFromUrl (param : Option String) (tabs : List String) :
    Option String :=
  match param with
  | some v => if v ≠ "" ∧ v ∈ tabs then some v else tabs[0]?
  | none => tabs[0]?

/-- From part_000 lines 43-51 (`initialTab`): the stateless variant's inline
computation of the active tab, written with the Boolean connectives of the
source (`resourceTypeFromUrl && authorizationTabs.includes(...)`). -/
def initialTab (param : Option String) (tabs : List String) : Option String :=
  let isValidResourceType : Bool :=
    match param with
    | some v => (v != "") && tabs.contains v
    | none => false
  if isValidResourceType then param else tabs[0]?

/-- Modelled from the spec: the shape of an authorization record (the API
types are not part of the given sources) — "an entity with an identifier, a
resource-type classification, and an ordered sequence of permission-type
labels". -/
structure AuthorizationRecord where
  authorizationKey : String
  resourceType : String
  permissionTypes : List String
deriving DecidableEq, Repr

/-- Modelled from the spec: the data page returned by the paginated
collaborator — an optional items list (the source guards it with
`items?.map`) plus pagination metadata, represented by `totalItems`. -/
structure SearchResponse where
  items : Option (List AuthorizationRecord)
  totalItems : Nat
deriving DecidableEq, Repr

/-- From List.tsx lines 76-89 / part_000 lines 64-77
(`sortPermissionTypesAlphabetically`): absent data is returned unchanged;
otherwise each record's permission-type list is replaced by a sorted copy
(JS `[...item.permissionTypes].sort()`, the default string sort, modelled
by insertion sort under the lexicographic order on strings). -/
def sortRecordPermissionTypes (item : AuthorizationRecord) :
    AuthorizationRecord :=
  { item with
    permissionTypes := item.permissionTypes.insertionSort (fun a b => a ≤ b) }

def sortPermissionTypesAlphabetically (authorizationData : Option SearchResponse) :
    Option SearchResponse :=
  match authorizationData with
  | some d =>
      some { d with items := d.items.map (fun its =>
        its.map sortRecordPermissionTypes) }
  | none => none

/-- URLSearchParams.get: the value of the first pair with the given key,
or null (`none`). -/
def getParam (ps : List (String × String)) (key : String) : Option String :=
  (ps.find? (fun p => p.fst == key)).map Prod.snd

/-- URLSearchParams.delete: remove every pair with the given key. -/
def removeParam (ps : List (String × String)) (key : String) :
    List (String × String) :=
  ps.filter (fun p => p.fst != key)

/-- URLSearchParams.set: replace the first pair with the given key (dropping
any later duplicates), or append the pair when the key is absent. -/
def setParam : List (String × String) → String → String →
    List (String × String)
  | [], key, value => [(key, value)]
  | p :: ps, key, value =>
      if p.fst == key then (key, value) :: removeParam ps key
      else p :: setParam ps key value

/-- From List.tsx lines 97-104 (the URL-sync effect): when the current
parameter differs from the active tab, a corrected parameter list is
written (with `replace: true`); otherwise no write happens (`none`). -/
def urlSyncWrite (searchParams : List (String × String)) (activeTab : String) :
    Option (List (String × String)) :=
  let resourceTypeFromUrl := getParam searchParams "resourceType"
  if resourceTypeFromUrl ≠ some activeTab then
    some (setParam searchParams "resourceType" activeTab)
  else
    none

/-- A write of the `resourceType` query parameter: the value written and
whether replace-navigation mode was used. -/
structure UrlWrite where
  resourceTypeValue : Option String
  replace : Bool
deriving DecidableEq, Repr

/-- From List.tsx lines 97-104: the stateful variant's only URL write, made
by the sync effect in replace mode; `none` when the
parameter already equals the active tab. -/
def statefulSyncWrite (searchParams : List (String × String))
    (activeTab : String) : Option UrlWrite :=
  if getParam searchParams "resourceType" ≠ some activeTab then
    some { resourceTypeValue := some activeTab, replace := true }
  else
    none

/-- From part_000 lines 85-89: the stateless variant's sync-effect write,
also in replace mode. -/
def statelessSyncWrite (resourceTypeFromUrl : Option String)
    (activeTab : String) : Option UrlWrite :=
  if resourceTypeFromUrl ≠ some activeTab then
    some { resourceTypeValue := some activeTab, replace := true }
  else
    none

/-- From List.tsx line 113 / part_000 line 93: the unchecked index
`authorizationTabs[tab.selectedIndex]`; a negative or out-of-range index
yields undefined (`none`). -/
def handleTabChangeLookup (tabs : List String) (selectedIndex : Int) :
    Option String :=
  if selectedIndex < 0 then none else tabs[selectedIndex.toNat]?

/-- From part_000 lines 91-98: the stateless variant's tab-selection write,
`setSearchParams` with no options object,
so replace-navigation mode defaults to false (a push). -/
def handleTabChangeWrite (tabs : List String) (selectedIndex : Int) :
    UrlWrite :=
  { resourceTypeValue := handleTabChangeLookup tabs selectedIndex,
    replace := false }

/-- The pagination-relevant state: the active tab, the collaborator-owned
page index (0 = first page) and the log of issued queries, most recent
first. -/
structure PaginationState where
  activeTab : String
  page : Nat
  issued : List (String × Nat)
deriving DecidableEq, Repr

/-- From List.tsx lines 107-109: the effect `useEffect(() =>
resetPagination(), [activeTab, resetPagination])` resets pagination on
every commit in which `activeTab` changed (UI selection and external URL
changes both go through `setActiveTab`). Modelled from the spec: the
paginated collaborator `usePaginatedApi` is not part of the given sources;
per the spec, "pagination must reset to its first page before or as part
of the new query", so the query for the changed filter is issued at the
post-reset page. -/
def tabChangeStateful (s : PaginationState) (newTab : String) :
    PaginationState :=
  if newTab = s.activeTab then s
  else
    let reset := { s with activeTab := newTab, page := 0 }
    { reset with issued := (newTab, reset.page) :: reset.issued }

/-- From part_000 lines 91-98 (`handleTabChange`): `resetPagination()` runs
first, then the URL write; the rerender derives the new active tab from the
written URL value and — Modelled from the spec, as for `tabChangeStateful` —
the collaborator issues the query for it at the reset page. -/
def tabChangeStateless (tabs : List String) (selectedIndex : Int)
    (s : PaginationState) : PaginationState :=
  let s1 := { s with page := 0 }
  match getActiveTabFromUrl (handleTabChangeLookup tabs selectedIndex) tabs with
  | some t => { s1 with activeTab := t, issued := (t, s1.page) :: s1.issued }
  | none => s1

/-- Call counters for the paginated collaborator's callbacks. -/
structure CollabCounters where
  reloadCalls : Nat
  resetCalls : Nat
deriving DecidableEq, Repr

/-- The collaborator callbacks the component can bind to UI actions. -/
inductive CollabAction where
  | reload
  | resetPagination
deriving DecidableEq, Repr

/-- Invoking a collaborator callback once. -/
def runAction : CollabAction → CollabCounters → CollabCounters
  | CollabAction.reload, c => { c with reloadCalls := c.reloadCalls + 1 }
  | CollabAction.resetPagination, c => { c with resetCalls := c.resetCalls + 1 }

/-- From List.tsx lines 152-157 / part_000 lines 133-138: the error
notification is rendered exactly when `!loading && !success`, and its retry
button's onClick handler is the collaborator's `reload` function. -/
def errorNotification (loading success : Bool) : Option CollabAction :=
  if !loading && !success then some CollabAction.reload else none

/-- One click on the rendered retry button: runs the bound handler once;
`none` when no notification is rendered. -/
def clickRetry (loading success : Bool) (c : CollabCounters) :
    Option CollabCounters :=
  (errorNotification loading success).map (fun a => runAction a c)

/-! ### Helper lemmas -/

lemma authorizationTabs_true_eq :
    authorizationTabs true = ["process", "tenant", "user"] := by decide

lemma authorizationTabs_false_eq :
    authorizationTabs false = ["process", "user"] := by decide

lemma mem_authorizationTabs_ne_nil {flag : Bool} {v : String}
    (h : v ∈ authorizationTabs flag) : v ≠ "" := by
  cases flag
  · rw [authorizationTabs_false_eq] at h
    simp only [List.mem_cons, List.not_mem_nil, or_false] at h
    rcases h with rfl | rfl <;> decide
  · rw [authorizationTabs_true_eq] at h
    simp only [List.mem_cons, List.not_mem_nil, or_false] at h
    rcases h with rfl | rfl | rfl <;> decide

lemma isValid_bool_iff (v : String) (tabs : List String) :
    ((v != "") && tabs.contains v) = true ↔ (v ≠ "" ∧ v ∈ tabs) := by
  simp [List.contains]

lemma firstTab_spec (flag : Bool) :
    (authorizationTabs flag)[0]? = some "process" ∧
      "process" ∈ authorizationTabs flag := by
  cases flag <;> decide

lemma getActiveTabFromUrl_of_mem {tabs : List String} {v : String}
    (hne : v ≠ "") (hm : v ∈ tabs) :
    getActiveTabFromUrl (some v) tabs = some v := by
  simp only [getActiveTabFromUrl]
  rw [if_pos ⟨hne, hm⟩]

lemma getActiveTabFromUrl_of_not_valid {tabs : List String} {v : String}
    (h : ¬(v ≠ "" ∧ v ∈ tabs)) :
    getActiveTabFromUrl (some v) tabs = tabs[0]? := by
  simp only [getActiveTabFromUrl]
  rw [if_neg h]

lemma getActiveTabFromUrl_mem (param : Option String) (flag : Bool) :
    ∃ t, getActiveTabFromUrl param (authorizationTabs flag) = some t ∧
      t ∈ authorizationTabs flag := by
  cases param with
  | none =>
      exact ⟨"process", (firstTab_spec flag).1, (firstTab_spec flag).2⟩
  | some v =>
      by_cases h : v ≠ "" ∧ v ∈ authorizationTabs flag
      · exact ⟨v, getActiveTabFromUrl_of_mem h.1 h.2, h.2⟩
      · exact ⟨"process",
          (getActiveTabFromUrl_of_not_valid h).trans (firstTab_spec flag).1,
          (firstTab_spec flag).2⟩

lemma handleTabChangeLookup_mem {tabs : List String} {i : Int} {v : String}
    (h : handleTabChangeLookup tabs i = some v) : v ∈ tabs := by
  unfold handleTabChangeLookup at h
  split at h
  · exact absurd h (by simp)
  · exact List.getElem?_mem h

/-! ### Claim theorems -/

/-- C1: for every URL query-parameter value and every computed tab set, the
active-tab resolution returns the parameter's value when it is present and
a member of the tab set, and the first element of the tab set when the
parameter is absent or not a member; hence the resolved active tab is
always a member of the computed tab set. -/
theorem activeTab_resolution (param : Option String) (flag : Bool) :
    (∀ v, param = some v → v ∈ authorizationTabs flag →
      getActiveTabFromUrl param (authorizationTabs flag) = some v) ∧
    (param = none →
      getActiveTabFromUrl param (authorizationTabs flag) =
        (authorizationTabs flag)[0]?) ∧
    (∀ v, param = some v → v ∉ authorizationTabs flag →
      getActiveTabFromUrl param (authorizationTabs flag) =
        (authorizationTabs flag)[0]?) ∧
    (∃ t, getActiveTabFromUrl param (authorizationTabs flag) = some t ∧
      t ∈ authorizationTabs flag) := by
  refine ⟨?_, ?_, ?_, getActiveTabFromUrl_mem param flag⟩
  · intro v hp hm
    subst hp
    exact getActiveTabFromUrl_of_mem (mem_authorizationTabs_ne_nil hm) hm
  · intro hp
    subst hp
    rfl
  · intro v hp hm
    subst hp
    exact getActiveTabFromUrl_of_not_valid (fun hc => hm hc.2)

/-- Witness for C1: with the tenant flag enabled, parameter value "user" is
kept, and the unknown value "bogus" falls back to the first tab. -/
theorem activeTab_resolution_witness :
    getActiveTabFromUrl (some "user") (authorizationTabs true) = some "user" ∧
    getActiveTabFromUrl (some "bogus") (authorizationTabs true) =
      some "process" :=
  ⟨(activeTab_resolution (some "user") true).1 "user" rfl (by decide),
    ((activeTab_resolution (some "bogus") true).2.2.1 "bogus" rfl
        (by decide)).trans (by decide)⟩

/-- C2: the derived tab set equals the full enumeration in enumeration
order when the flag is enabled, and that enumeration with exactly the
tenant member removed when the flag is disabled; every remaining
enumeration member appears exactly once. -/
theorem authorizationTabs_spec (flag : Bool) :
    (flag = true → authorizationTabs flag = allResourceTypes) ∧
    (flag = false →
      authorizationTabs flag = allResourceTypes.erase ResourceType.TENANT) ∧
    (∀ t, t ∈ allResourceTypes → t ≠ ResourceType.TENANT →
      t ∈ authorizationTabs flag) ∧
    (∀ t, t ∈ authorizationTabs flag → (authorizationTabs flag).count t = 1) ∧
    (ResourceType.TENANT ∈ authorizationTabs flag ↔ flag = true) := by
  cases flag
  · refine ⟨?_, ?_, ?_, ?_, ?_⟩
    · intro h
      exact absurd h (by decide)
    · intro _
      decide
    · intro t ht hne
      simp only [allResourceTypes, List.mem_cons, List.not_mem_nil, or_false] at ht
      rcases ht with rfl | rfl | rfl
      · decide
      · exact absurd rfl hne
      · decide
    · intro t ht
      rw [authorizationTabs_false_eq] at ht ⊢
      simp only [List.mem_cons, List.not_mem_nil, or_false] at ht
      rcases ht with rfl | rfl <;> decide
    · decide
  · refine ⟨?_, ?_, ?_, ?_, ?_⟩
    · intro _
      decide
    · intro h
      exact absurd h (by decide)
    · intro t ht _
      rw [authorizationTabs_true_eq]
      simpa [allResourceTypes] using ht
    · intro t ht
      rw [authorizationTabs_true_eq] at ht ⊢
      simp only [List.mem_cons, List.not_mem_nil, or_false] at ht
      rcases ht with rfl | rfl | rfl <;> decide
    · decide

/-- Witness for C2: with the flag disabled the tab set is the enumeration
with tenant removed, and "user" still appears exactly once. -/
theorem authorizationTabs_spec_witness :
    authorizationTabs false = allResourceTypes.erase ResourceType.TENANT ∧
    (authorizationTabs false).count "user" = 1 :=
  ⟨(authorizationTabs_spec false).2.1 rfl,
    (authorizationTabs_spec false).2.2.2.1 "user" (by decide)⟩

/-- C9: the stateless variant's derived active tab equals the stateful
variant's initial active-tab state, for every URL parameter value and
every value of the tenant capability flag. -/
theorem initialTab_eq_getActiveTabFromUrl (param : Option String) (flag : Bool) :
    initialTab param (authorizationTabs flag) =
      getActiveTabFromUrl param (authorizationTabs flag) := by
  cases param with
  | none => rfl
  | some v =>
      simp only [initialTab, getActiveTabFromUrl]
      by_cases h : v ≠ "" ∧ v ∈ authorizationTabs flag
      · rw [if_pos ((isValid_bool_iff v (authorizationTabs flag)).mpr h),
          if_pos h]
      · rw [if_neg (fun hc =>
            h ((isValid_bool_iff v (authorizationTabs flag)).mp hc)),
          if_neg h]

/-- C10: the tab-selection lookup indexes the tab set without a bounds
check: a selectedIndex in range yields the element at that index (a member
of the tab set), while any out-of-range index yields no element. -/
theorem handleTabChangeLookup_spec (tabs : List String) (i : Int) :
    (∀ (_h0 : 0 ≤ i) (hlt : i.toNat < tabs.length),
      handleTabChangeLookup tabs i = some (tabs.get ⟨i.toNat, hlt⟩) ∧
      tabs.get ⟨i.toNat, hlt⟩ ∈ tabs) ∧
    (i < 0 → handleTabChangeLookup tabs i = none) ∧
    ((tabs.length : Int) ≤ i → handleTabChangeLookup tabs i = none) := by
  refine ⟨?_, ?_, ?_⟩
  · intro h0 hlt
    unfold handleTabChangeLookup
    rw [if_neg (not_lt.mpr h0)]
    exact ⟨List.getElem?_eq_getElem hlt, List.get_mem tabs i.toNat hlt⟩
  · intro h
    unfold handleTabChangeLookup
    rw [if_pos h]
  · intro h
    unfold handleTabChangeLookup
    rw [if_neg (by omega)]
    exact List.getElem?_eq_none (by omega)

/-- Witness for C10: index 1 selects the second tab, index -1 and index 5
select nothing. -/
theorem handleTabChangeLookup_spec_witness :
    handleTabChangeLookup (authorizationTabs true) 1 = some "tenant" ∧
    handleTabChangeLookup (authorizationTabs true) (-1) = none ∧
    handleTabChangeLookup (authorizationTabs true) 5 = none :=
  ⟨((handleTabChangeLookup_spec (authorizationTabs true) 1).1 (by decide)
      (by decide)).1.trans (by decide),
    (handleTabChangeLookup_spec (authorizationTabs true) (-1)).2.1 (by decide),
    (handleTabChangeLookup_spec (authorizationTabs true) 5).2.2 (by decide)⟩

/-- C3: the presentation transform maps a present page to a page in which
each record's permission-type list is replaced by an alphabetically sorted
copy (sorted under the string order, with the same multiset of entries),
maps absent input to absent output, and on the spec's example record turns
["WRITE", "READ", "CREATE"] into ["CREATE", "READ", "WRITE"]. -/
theorem sortPermissionTypes_sorts (d : SearchResponse) :
    sortPermissionTypesAlphabetically none = none ∧
    (∃ d', sortPermissionTypesAlphabetically (some d) = some d' ∧
      Option.Rel (List.Forall₂ (fun src out =>
          List.Sorted (fun a b : String => a ≤ b) out.permissionTypes ∧
          List.Perm out.permissionTypes src.permissionTypes))
        d.items d'.items) ∧
    sortPermissionTypesAlphabetically
        (some ⟨some [⟨"a1", "process", ["WRITE", "READ", "CREATE"]⟩], 1⟩) =
      some ⟨some [⟨"a1", "process", ["CREATE", "READ", "WRITE"]⟩], 1⟩ := by
  refine ⟨rfl, ⟨_, rfl, ?_⟩, ?_⟩
  · cases hit : d.items with
    | none => exact Option.Rel.none
    | some l =>
        refine Option.Rel.some ?_
        rw [List.forall₂_map_right_iff]
        refine List.forall₂_same.mpr (fun x _ => ?_)
        exact ⟨List.sorted_insertionSort _ _, List.perm_insertionSort _ _⟩
  · simp only [sortPermissionTypesAlphabetically, sortRecordPermissionTypes,
      Option.map, List.map, List.insertionSort, List.orderedInsert,
      String.le_iff_toList_le, String.toList]
    decide

/-- C4: the presentation transform is a pure function of its input (it is a
function in this model, and the source sorts a spread copy of each
permission list): the output page keeps every field other than the items
list, keeps the presence of the items list, and each output record keeps
every field other than the permission-type list, whose content (as a
multiset) is also preserved. -/
theorem sortPermissionTypes_frame (d : SearchResponse) :
    ∃ d', sortPermissionTypesAlphabetically (some d) = some d' ∧
      d'.totalItems = d.totalItems ∧
      d'.items.isSome = d.items.isSome ∧
      Option.Rel (List.Forall₂ (fun src out =>
          out.authorizationKey = src.authorizationKey ∧
          out.resourceType = src.resourceType ∧
          List.Perm out.permissionTypes src.permissionTypes))
        d.items d'.items := by
  refine ⟨_, rfl, rfl, ?_, ?_⟩
  · cases hit : d.items <;> simp [hit]
  · cases hit : d.items with
    | none => exact Option.Rel.none
    | some l =>
        refine Option.Rel.some ?_
        rw [List.forall₂_map_right_iff]
        exact List.forall₂_same.mpr
          (fun x _ => ⟨rfl, rfl, List.perm_insertionSort _ _⟩)

/-- C5: the error notification is rendered exactly when loading and success
are both false, its retry handler is the collaborator's reload callback,
and a click on the rendered retry button invokes reload exactly once
(and nothing else). -/
theorem errorNotification_spec (loading success : Bool) (c : CollabCounters) :
    (errorNotification loading success = some CollabAction.reload ↔
      loading = false ∧ success = false) ∧
    (errorNotification loading success = none ↔
      (loading = true ∨ success = true)) ∧
    clickRetry false false c =
      some { reloadCalls := c.reloadCalls + 1, resetCalls := c.resetCalls } ∧
    clickRetry true success c = none ∧
    clickRetry loading true c = none := by
  refine ⟨?_, ?_, rfl, rfl, ?_⟩
  · cases loading <;> cases success <;> simp [errorNotification]
  · cases loading <;> cases success <;> simp [errorNotification]
  · cases loading <;> rfl

/-- Witness for C5: on a failed fetch the notification carries the reload
handler, on a loading state it is absent, and one click bumps the reload
counter from 0 to 1. -/
theorem errorNotification_spec_witness :
    errorNotification false false = some CollabAction.reload ∧
    errorNotification true false = none ∧
    clickRetry false false { reloadCalls := 0, resetCalls := 0 } =
      some { reloadCalls := 1, resetCalls := 0 } :=
  ⟨((errorNotification_spec false false ⟨0, 0⟩).1).mpr ⟨rfl, rfl⟩,
    ((errorNotification_spec true false ⟨0, 0⟩).2.1).mpr (Or.inl rfl),
    (errorNotification_spec false false
      { reloadCalls := 0, resetCalls := 0 }).2.2.1⟩

/-- C6: on every transition that changes the active tab — in the stateful
variant (where both UI selection and external URL changes funnel through
`setActiveTab`) and in the stateless variant's `handleTabChange` —
pagination is reset to the first page before or together with the query
for the new tab, so the query for the new tab is issued at page 0, never
at a later page of the previous tab. -/
theorem tabChange_resets_pagination (s : PaginationState) (newTab : String)
    (flag : Bool) (selectedIndex : Int)
    (hchange : newTab ≠ s.activeTab)
    (hsel : handleTabChangeLookup (authorizationTabs flag) selectedIndex =
      some newTab) :
    ((tabChangeStateful s newTab).page = 0 ∧
      (tabChangeStateful s newTab).issued = (newTab, 0) :: s.issued) ∧
    ((tabChangeStateless (authorizationTabs flag) selectedIndex s).page = 0 ∧
      (tabChangeStateless (authorizationTabs flag) selectedIndex s).issued =
        (newTab, 0) :: s.issued) := by
  have hmem := handleTabChangeLookup_mem hsel
  have hres : getActiveTabFromUrl (some newTab) (authorizationTabs flag) =
      some newTab :=
    getActiveTabFromUrl_of_mem (mem_authorizationTabs_ne_nil hmem) hmem
  refine ⟨⟨?_, ?_⟩, ?_⟩
  · simp [tabChangeStateful, hchange]
  · simp [tabChangeStateful, hchange]
  · simp [tabChangeStateless, hsel, hres]


/-- Witness for C6: switching from "process" (at page 3) to "user" via
index 2 resets to page 0 and issues the query for "user" at page 0, in
both variants. -/
theorem tabChange_resets_pagination_witness :
    (tabChangeStateful ⟨"process", 3, []⟩ "user").page = 0 ∧
    (tabChangeStateful ⟨"process", 3, []⟩ "user").issued = [("user", 0)] ∧
    (tabChangeStateless (authorizationTabs true) 2 ⟨"process", 3, []⟩).issued =
      [("user", 0)] := by
  have h := tabChange_resets_pagination ⟨"process", 3, []⟩ "user" true 2
    (by decide) (by decide)
  exact ⟨h.1.1, h.1.2, h.2.2⟩

/-- C7 (corrected) counterexample: the stateless variant's tab-selection
handler writes the `resourceType` parameter with `setSearchParams` and no
options object, so the write does not use replace-navigation mode. -/
theorem handleTabChangeWrite_is_push :
    handleTabChangeWrite (authorizationTabs true) 0 =
      { resourceTypeValue := some "process", replace := false } := by decide

/-- C7 (amended): the stateful variant's only `resourceType` write (its
sync effect) and the stateless variant's corrective sync write use
replace-navigation mode, while the stateless variant's tab-selection write
uses the default push mode. -/
theorem resourceTypeWrite_modes (ps : List (String × String))
    (resourceTypeFromUrl : Option String) (activeTab : String)
    (tabs : List String) (i : Int) :
    (∀ w, statefulSyncWrite ps activeTab = some w → w.replace = true) ∧
    (∀ w, statelessSyncWrite resourceTypeFromUrl activeTab = some w →
      w.replace = true) ∧
    (handleTabChangeWrite tabs i).replace = false := by
  refine ⟨?_, ?_, rfl⟩
  · intro w hw
    unfold statefulSyncWrite at hw
    split at hw
    · injection hw with h
      subst h
      rfl
    · exact absurd hw (by simp)
  · intro w hw
    unfold statelessSyncWrite at hw
    split at hw
    · injection hw with h
      subst h
      rfl
    · exact absurd hw (by simp)

/-- Witness for C7 (amended): at an out-of-sync URL the stateful sync
write carries replace mode, and the stateless tab-selection write does
not. -/
theorem resourceTypeWrite_modes_witness :
    ({ resourceTypeValue := some "process", replace := true } : UrlWrite).replace
        = true ∧
    (handleTabChangeWrite (authorizationTabs true) 1).replace = false :=
  ⟨(resourceTypeWrite_modes [] none "process" (authorizationTabs true) 1).1
      { resourceTypeValue := some "process", replace := true } (by decide),
    (resourceTypeWrite_modes [] none "process" (authorizationTabs true) 1).2.2⟩

lemma getParam_setParam (ps : List (String × String)) (k v : String) :
    getParam (setParam ps k v) k = some v := by
  induction ps with
  | nil => simp [setParam, getParam]
  | cons p ps ih =>
      by_cases h : p.fst = k
      · simp [setParam, getParam, h]
      · have hbeq : (p.fst == k) = false := by simpa using h
        simp only [setParam]
        rw [if_neg (by simp [hbeq])]
        show getParam (p :: setParam ps k v) k = some v
        unfold getParam
        rw [List.find?_cons_of_neg _ (by simp [hbeq])]
        exact ih

/-- C8: the URL-sync step writes the `resourceType` parameter iff its
current value differs from the active tab; a corrective write sets the
parameter to the active tab, after which neither the state-to-URL step
(no further write) nor the URL-to-state step (the resolution returns the
same tab) changes anything — a fixpoint after one write. -/
theorem urlSync_fixpoint (flag : Bool) (ps : List (String × String))
    (activeTab : String)
    (hresolve : getActiveTabFromUrl (getParam ps "resourceType")
      (authorizationTabs flag) = some activeTab) :
    (getParam ps "resourceType" = some activeTab →
      urlSyncWrite ps activeTab = none) ∧
    (getParam ps "resourceType" ≠ some activeTab →
      urlSyncWrite ps activeTab =
        some (setParam ps "resourceType" activeTab) ∧
      getParam (setParam ps "resourceType" activeTab) "resourceType" =
        some activeTab ∧
      urlSyncWrite (setParam ps "resourceType" activeTab) activeTab = none ∧
      getActiveTabFromUrl
          (getParam (setParam ps "resourceType" activeTab) "resourceType")
          (authorizationTabs flag) = some activeTab) := by
  have hmem : activeTab ∈ authorizationTabs flag := by
    obtain ⟨t, ht, htm⟩ := getActiveTabFromUrl_mem (getParam ps "resourceType") flag
    rw [hresolve] at ht
    injection ht with h2
    subst h2
    exact htm
  constructor
  · intro h
    simp only [urlSyncWrite]
    rw [if_neg (not_not_intro h)]
  · intro h
    have hset := getParam_setParam ps "resourceType" activeTab
    refine ⟨?_, hset, ?_, ?_⟩
    · simp only [urlSyncWrite]
      rw [if_pos h]
    · simp only [urlSyncWrite]
      rw [if_neg (not_not_intro hset)]
    · rw [hset]
      exact getActiveTabFromUrl_of_mem (mem_authorizationTabs_ne_nil hmem) hmem

/-- Witness for C8: a URL holding the invalid value "bogus" is corrected
to the resolved first tab "process" in one write, and the corrected URL is
a fixpoint (no further write). -/
theorem urlSync_fixpoint_witness :
    urlSyncWrite [("resourceType", "bogus")] "process" =
      some [("resourceType", "process")] ∧
    urlSyncWrite [("resourceType", "process")] "process" = none := by
  have h := (urlSync_fixpoint true [("resourceType", "bogus")] "process"
    (by decide)).2 (by decide)
  refine ⟨h.1.trans (by decide), ?_⟩
  have h2 := h.2.2.1
  rw [show setParam [("resourceType", "bogus")] "resourceType" "process" =
    [("resourceType", "process")] from by decide] at h2
  exact h2
